import Mathlib

/-!
Verification of the MyMindSpace/VectorDB vector record service.

Shallow embedding of `src/services/vectorService.js` (the `VectorService`
CRUD/search layer and the `VectorUtils` math utilities), of the route-level
error mapping in `src/routes/vectors.js`, and of the document-store
capability the service calls into.  JavaScript numbers are modelled by `ℚ`
(with a dedicated type for NaN/Infinity where the code distinguishes them),
JS objects holding metadata by association lists with first-match lookup,
and thrown exceptions by `Except`.
-/

namespace VectorDB

/-- A metadata field value (string, number, or list of strings). -/
inductive MetaVal where
  | str (s : String)
  | num (q : ℚ)
  | strList (l : List String)
deriving DecidableEq, Repr

/-- A metadata object: association list with JS-object key semantics.
Lookup returns the first binding, so a key written later in JS
(`{...m, k: v}`) is modelled by consing `(k, v)` in front of `m`. -/
abbrev Meta := List (String × MetaVal)

/-- Key lookup in a metadata object. -/
def metaLookup (m : Meta) (k : String) : Option MetaVal :=
  List.lookup k m

/-- A stored document, as inserted by the service
(`{_id, vector, metadata}`). -/
structure Doc where
  docId : String
  vector : List ℚ
  metadata : Meta
deriving DecidableEq, Repr

/-- The document collection. -/
abbrev Store := List Doc

/-- Payload of a create request (`vectorData`): a vector plus caller
metadata. -/
structure VectorData where
  vector : List ℚ
  metadata : Meta

/-- Payload of an update request (`updateData`): optional new vector and/or
optional metadata object.  `none` models an absent (falsy) field. -/
structure UpdateData where
  vector : Option (List ℚ)
  metadata : Option Meta

/-- `VectorService.createVector` (src/services/vectorService.js lines
17-42): builds the document with a fresh id, spreads the caller metadata and
then writes `dimensions`, `created_at`, `updated_at` over it (later JS keys
override, hence the cons order), and inserts it.  The generated UUID and the
current ISO timestamp are parameters. -/
def createVector (newId now : String) (vd : VectorData) (store : Store) :
    Doc × Store :=
  let doc : Doc :=
    { docId := newId
      vector := vd.vector
      metadata :=
        ("updated_at", MetaVal.str now) ::
        ("created_at", MetaVal.str now) ::
        ("dimensions", MetaVal.num vd.vector.length) :: vd.metadata }
  (doc, store ++ [doc])

/-- `VectorService.createVectorsBatch` (lines 241-270): maps the document
construction of `createVector` over the items and inserts them all.  Fresh
ids are supplied as a parallel list. -/
def createVectorsBatch (newIds : List String) (now : String)
    (items : List VectorData) (store : Store) : List Doc × Store :=
  let docs := (newIds.zip items).map fun p =>
    { docId := p.1
      vector := p.2.vector
      metadata :=
        ("updated_at", MetaVal.str now) ::
        ("created_at", MetaVal.str now) ::
        ("dimensions", MetaVal.num p.2.vector.length) :: p.2.metadata }
  (docs, store ++ docs)

/-- The `updateDoc` built by `VectorService.updateVector` (lines 70-85):
the vector is copied when supplied; when a metadata payload is supplied the
new metadata object is the payload with `updated_at` written over it, and
with `dimensions` recomputed only when a vector is supplied too. -/
def buildUpdateDoc (now : String) (u : UpdateData) :
    Option (List ℚ) × Option Meta :=
  (u.vector,
   u.metadata.map fun m =>
     let m1 : Meta := ("updated_at", MetaVal.str now) :: m
     match u.vector with
     | some v => ("dimensions", MetaVal.num v.length) :: m1
     | none => m1)

/-- Modelled external-store capability (spec §6, `findOneAndUpdate` with a
`$set` update): a document-store `$set` replaces each named *top-level*
field of the document wholesale, so a `$set` carrying a whole `metadata`
object replaces the stored metadata object rather than merging into it. -/
def applySet (d : Doc) (uv : Option (List ℚ)) (um : Option Meta) : Doc :=
  { d with vector := uv.getD d.vector, metadata := um.getD d.metadata }

/-- Inner body of `VectorService.updateVector` (lines 66-101): builds the
update document, calls `findOneAndUpdate` (returning the post-update
document), and throws `Vector not found` when no document matches. -/
def updateVectorInner (store : Store) (now id : String) (u : UpdateData) :
    Except String (Doc × Store) :=
  let ud := buildUpdateDoc now u
  match store.find? (fun d => d.docId = id) with
  | none => Except.error "Vector not found"
  | some d =>
      Except.ok (applySet d ud.1 ud.2,
        store.map fun x => if x.docId = id then applySet x ud.1 ud.2 else x)

/-- `VectorService.updateVector` including its catch-all wrapper (lines
102-104): every error is re-thrown with the `Failed to update vector: `
prefix. -/
def updateVector (store : Store) (now id : String) (u : UpdateData) :
    Except String (Doc × Store) :=
  (updateVectorInner store now id u).mapError
    (fun e => "Failed to update vector: " ++ e)

/-- Inner body of `VectorService.getVectorById` (lines 45-59): `findOne` by
id, throwing `Vector not found` on a null result. -/
def getVectorByIdInner (store : Store) (id : String) : Except String Doc :=
  match store.find? (fun d => d.docId = id) with
  | none => Except.error "Vector not found"
  | some d => Except.ok d

/-- `VectorService.getVectorById` including its catch-all wrapper (lines
60-62). -/
def getVectorById (store : Store) (id : String) : Except String Doc :=
  (getVectorByIdInner store id).mapError
    (fun e => "Failed to get vector: " ++ e)

/-- Inner body of `VectorService.deleteVector` (lines 108-118): `deleteOne`
by id (modelled as erasing the first match), throwing `Vector not found`
when `deletedCount` is zero. -/
def deleteVectorInner (store : Store) (id : String) :
    Except String (Bool × Store) :=
  if store.any (fun d => d.docId = id) then
    Except.ok (true, store.eraseP (fun d => d.docId = id))
  else
    Except.error "Vector not found"

/-- `VectorService.deleteVector` including its catch-all wrapper (lines
119-121). -/
def deleteVector (store : Store) (id : String) :
    Except String (Bool × Store) :=
  (deleteVectorInner store id).mapError
    (fun e => "Failed to delete vector: " ++ e)

/-- Outcome at the route boundary (src/routes/vectors.js): success, the
explicit 404 branch, or `next(error)` (the generic error handler). -/
inductive RouteOutcome (α : Type) where
  | ok (a : α)
  | notFound
  | nextError (msg : String)
deriving DecidableEq, Repr

/-- `router.get('/:id')` (src/routes/vectors.js lines 68-85): calls the
service, answers 404 only when the caught error message is exactly
`Vector not found`, and otherwise forwards to `next(error)`. -/
def routeGetById (store : Store) (id : String) : RouteOutcome Doc :=
  match getVectorById store id with
  | Except.ok d => RouteOutcome.ok d
  | Except.error msg =>
      if msg = "Vector not found" then RouteOutcome.notFound
      else RouteOutcome.nextError msg

/-- `router.put('/:id')` (lines 90-108): same 404 test around
`updateVector`. -/
def routePut (store : Store) (now id : String) (u : UpdateData) :
    RouteOutcome (Doc × Store) :=
  match updateVector store now id u with
  | Except.ok r => RouteOutcome.ok r
  | Except.error msg =>
      if msg = "Vector not found" then RouteOutcome.notFound
      else RouteOutcome.nextError msg

/-- `router.delete('/:id')` (lines 113-131): same 404 test around
`deleteVector`. -/
def routeDelete (store : Store) (id : String) :
    RouteOutcome (Bool × Store) :=
  match deleteVector store id with
  | Except.ok r => RouteOutcome.ok r
  | Except.error msg =>
      if msg = "Vector not found" then RouteOutcome.notFound
      else RouteOutcome.nextError msg

/-! ### Pagination (`VectorService.listVectors`, lines 167-180) -/

/-- The pagination object returned by `listVectors`. -/
structure Pagination where
  current_page : ℕ
  per_page : ℕ
  total_items : ℕ
  total_pages : ℕ
  has_next : Bool
  has_prev : Bool
deriving DecidableEq, Repr

/-- The pagination computation of `VectorService.listVectors` (lines
170-179) as a function of the requested page, the limit and the
`countDocuments` total: `total_pages = Math.ceil(total / limit)`,
`has_next = page * limit < total`, `has_prev = page > 1`. -/
def listPagination (page limit total : ℕ) : Pagination :=
  { current_page := page
    per_page := limit
    total_items := total
    total_pages := ⌈(total : ℚ) / (limit : ℚ)⌉₊
    has_next := decide (page * limit < total)
    has_prev := decide (1 < page) }

/-! ### JS numbers with NaN/Infinity (`VectorUtils`, lines 380-463) -/

/-- A JavaScript number as the validation code distinguishes them: NaN, the
two infinities, or a finite value. -/
inductive JSNum where
  | nan
  | inf
  | ninf
  | fin (q : ℚ)
deriving DecidableEq, Repr

/-- JS `isNaN` on a number. -/
def JSNum.isNaNb : JSNum → Bool
  | JSNum.nan => true
  | _ => false

/-- JS `isFinite` on a number. -/
def JSNum.isFiniteb : JSNum → Bool
  | JSNum.fin _ => true
  | _ => false

/-- The error conditions `VectorUtils.validateVector` can throw. -/
inductive ValidateErr where
  | EmptyVector
  | InvalidNumbers
  | DimensionMismatch
  | DimensionExceeded
deriving DecidableEq, Repr

/-- `VectorUtils.validateVector` (lines 380-403) on an array of numbers:
rejects the empty array, then any element with `isNaN` true (the check is
`typeof val === 'number' && !isNaN(val)`, so infinities pass), then a
mismatch against a truthy `expectedDimensions`, then a length above
`maxDimensions`; otherwise returns `true`.  The not-an-array branch is
unrepresentable because the input is typed as a list. -/
def validateVector (vector : List JSNum) (expectedDimensions : Option ℕ)
    (maxDimensions : ℕ) : Except ValidateErr Bool :=
  if vector.length = 0 then
    Except.error ValidateErr.EmptyVector
  else if ¬ vector.all (fun val => !val.isNaNb) then
    Except.error ValidateErr.InvalidNumbers
  else if (expectedDimensions.getD 0 ≠ 0) ∧
      vector.length ≠ expectedDimensions.getD 0 then
    Except.error ValidateErr.DimensionMismatch
  else if maxDimensions < vector.length then
    Except.error ValidateErr.DimensionExceeded
  else
    Except.ok true

/-- `VectorUtils.isValidVector` (lines 457-463): true iff every element is
a number that is neither NaN nor infinite. -/
def isValidVector (vector : List JSNum) : Bool :=
  vector.all fun val => !val.isNaNb && val.isFiniteb

/-! ### Batch processing (`VectorUtils.batchProcess`, lines 444-454) -/

/-- Fuelled loop body of `VectorUtils.batchProcess`: while `i <
vectors.length`, map `processFn` over `vectors.slice(i, i + batchSize)`,
append, and continue at `i + batchSize`.  Each loop iteration consumes one
unit of fuel, so fuel exhaustion (`none`) models a non-terminating run. -/
def batchProcessAux (processFn : α → β) (batchSize : ℕ) (vectors : List α) :
    ℕ → ℕ → List β → Option (List β)
  | 0, _, _ => none
  | fuel + 1, i, acc =>
    if i < vectors.length then
      let batch := (vectors.drop i).take batchSize
      batchProcessAux processFn batchSize vectors fuel (i + batchSize)
        (acc ++ batch.map processFn)
    else
      some acc

/-- `VectorUtils.batchProcess` (lines 444-454), with fuel
`vectors.length + 1`: when `batchSize ≥ 1` the loop runs at most
`vectors.length` times so this fuel is never exhausted; when
`batchSize = 0` the JS loop never advances `i` and this returns `none`. -/
def batchProcess (vectors : List α) (processFn : α → β) (batchSize : ℕ) :
    Option (List β) :=
  batchProcessAux processFn batchSize vectors (vectors.length + 1) 0 []

/-! ### Similarity search (`VectorService.findSimilarVectors`,
lines 187-238) -/

/-- The optional filter fields accepted by `findSimilarVectors`. -/
structure SimilarityFilters where
  user_id : Option String
  source_type : Option String
  source_id : Option String
  tags : Option (List String)
  created_after : Option String
  created_before : Option String

/-- The `{$gte, $lte}` range object built on `metadata.created_at`. -/
structure CreatedAtRange where
  gte : Option String
  lte : Option String
deriving DecidableEq, Repr

/-- The backend filter built by `findSimilarVectors` (lines 197-208). -/
structure SimFilter where
  user_id : Option String
  source_type : Option String
  source_id : Option String
  tags_in : Option (List String)
  created_at : Option CreatedAtRange
deriving DecidableEq, Repr

/-- Filter construction of `findSimilarVectors` (lines 197-208): equality
constraints for `user_id`/`source_type`/`source_id`, an `$in` constraint
for `tags`, `created_after` writing `{$gte}` on `metadata.created_at`, and
`created_before` spreading the existing `metadata.created_at` object (or
`{}`) and adding `$lte`. -/
def buildSimilarityFilter (f : SimilarityFilters) : SimFilter :=
  let r0 : SimFilter := ⟨none, none, none, none, none⟩
  let r1 := match f.user_id with
    | some u => { r0 with user_id := some u }
    | none => r0
  let r2 := match f.source_type with
    | some s => { r1 with source_type := some s }
    | none => r1
  let r3 := match f.source_id with
    | some s => { r2 with source_id := some s }
    | none => r2
  let r4 := match f.tags with
    | some t => { r3 with tags_in := some t }
    | none => r3
  let r5 := match f.created_after with
    | some a => { r4 with created_at := some ⟨some a, none⟩ }
    | none => r4
  match f.created_before with
  | some b =>
      let prev := r5.created_at.getD ⟨none, none⟩
      { r5 with created_at := some ⟨prev.gte, some b⟩ }
  | none => r5

/-- A document yielded by the backend's vector-ranked cursor
(`includeSimilarity: true` adds `$similarity`). -/
structure SimDoc where
  docId : String
  vector : List ℚ
  metadata : Meta
  similarity : ℚ
deriving DecidableEq, Repr

/-- One entry of the `results` array built by `findSimilarVectors`
(lines 221-228). -/
structure SimResultEntry where
  id : String
  vector : List ℚ
  metadata : Meta
  similarity_score : ℚ
deriving DecidableEq, Repr

/-- The value returned by `findSimilarVectors` (lines 230-234). -/
structure SimResult where
  query_vector_dimensions : ℕ
  results : List SimResultEntry
  total_results : ℕ
deriving DecidableEq, Repr

/-- `VectorService.findSimilarVectors` (lines 187-238), parameterized by
the backend's vector-ranked `find` capability (spec §6): builds the filter,
asks the backend for the cursor with the given limit, converts each yielded
document in cursor order, and reports the query dimensionality and the
result count. -/
def findSimilarVectors (backend : SimFilter → ℕ → List SimDoc)
    (queryVector : List ℚ) (limit : ℕ) (filters : SimilarityFilters) :
    SimResult :=
  let filter := buildSimilarityFilter filters
  let docs := backend filter limit
  let results := docs.map fun d =>
    { id := d.docId
      vector := d.vector
      metadata := d.metadata
      similarity_score := d.similarity }
  { query_vector_dimensions := queryVector.length
    results := results
    total_results := results.length }

/-! ### Real-valued vector math (`VectorUtils`, lines 315-377) -/

/-- The error the pure math utilities throw on a length mismatch
(`Vectors must have the same dimensions`). -/
inductive VecErr where
  | DimensionMismatch
deriving DecidableEq, Repr

/-- `VectorUtils.magnitude` (lines 366-368): the square root of
`reduce((sum, val) => sum + val * val, 0)`. -/
noncomputable def magnitude (vector : List ℝ) : ℝ :=
  Real.sqrt (vector.foldl (fun sum val => sum + val * val) 0)

/-- `VectorUtils.dotProduct` (lines 371-377): throws on a length mismatch,
otherwise `reduce((sum, val, i) => sum + val * vectorB[i], 0)`; under the
length guard the index-paired reduce is the fold over the zipped lists. -/
noncomputable def dotProduct (vectorA vectorB : List ℝ) : Except VecErr ℝ :=
  if vectorA.length ≠ vectorB.length then
    Except.error VecErr.DimensionMismatch
  else
    Except.ok ((vectorA.zip vectorB).foldl (fun sum p => sum + p.1 * p.2) 0)

/-- `VectorUtils.cosineSimilarity` (lines 315-337): throws on a length
mismatch; otherwise one fused loop accumulates the dot product and the two
squared norms, and the result is `0` when
`sqrt(normA) * sqrt(normB) === 0`, else the quotient. -/
noncomputable def cosineSimilarity (vectorA vectorB : List ℝ) :
    Except VecErr ℝ :=
  if vectorA.length ≠ vectorB.length then
    Except.error VecErr.DimensionMismatch
  else
    let t := (vectorA.zip vectorB).foldl
      (fun (acc : ℝ × ℝ × ℝ) p =>
        (acc.1 + p.1 * p.2, acc.2.1 + p.1 * p.1, acc.2.2 + p.2 * p.2))
      (0, 0, 0)
    let m := Real.sqrt t.2.1 * Real.sqrt t.2.2
    Except.ok (if m = 0 then 0 else t.1 / m)

/-! ### Vector statistics (`VectorUtils.calculateVectorStatistics`,
lines 466-524) -/

/-- `VectorUtils.magnitude` applied to a rational (finite-valued) vector,
as a real number. -/
noncomputable def magnitudeQ (v : List ℚ) : ℝ :=
  Real.sqrt ((v.foldl (fun sum val => sum + val * val) 0 : ℚ) : ℝ)

/-- One entry of `dimension_stats`: JS initializes `min`/`max` to
`Infinity`/`-Infinity`, modelled by `⊤ : WithTop ℚ` and `⊥ : WithBot ℚ`. -/
structure DimStat where
  min : WithTop ℚ
  max : WithBot ℚ
  mean : ℚ
  std : ℝ

/-- The statistics record built by `calculateVectorStatistics`. -/
structure VectorStats where
  count : ℕ
  dimensions : ℕ
  mean_magnitude : ℝ
  min_magnitude : WithTop ℝ
  max_magnitude : WithBot ℝ
  dimension_stats : List DimStat

/-- The `dimension_stats` entry the statistics loop produces for
coordinate `i`: it collects `vector[i]` over all vectors in input order
(`dimensionValues[i]`), folds `min`/`max` incrementally from the
`Infinity`/`-Infinity` initial values (modelled by `⊤`/`⊥`), and divides
the reduced sum and squared-deviation sum by `values.length`.  JS
`vector[i]` for an out-of-range `i` is `undefined`; it is modelled by
`getD i 0`, which the equal-length hypothesis of the theorems keeps
unreachable. -/
noncomputable def dimStatAt (vs : List (List ℚ)) (i : ℕ) : DimStat :=
  let values : List ℚ := vs.map fun v => v.getD i 0
  let mn : WithTop ℚ :=
    values.foldl (fun (acc : WithTop ℚ) (val : ℚ) =>
      min acc (val : WithTop ℚ)) ⊤
  let mx : WithBot ℚ :=
    values.foldl (fun (acc : WithBot ℚ) (val : ℚ) =>
      max acc (val : WithBot ℚ)) ⊥
  let mean : ℚ :=
    values.foldl (fun sum val => sum + val) 0 / (values.length : ℚ)
  let variance : ℚ :=
    values.foldl (fun sum val => sum + (val - mean) * (val - mean)) 0 /
      (values.length : ℚ)
  { min := mn, max := mx, mean := mean, std := Real.sqrt (variance : ℝ) }

/-- `VectorUtils.calculateVectorStatistics` (lines 466-524): `null` on an
empty input; otherwise `dimensions` is the first vector's length, the
magnitude aggregates fold over all vectors (initial values
`Infinity`/`-Infinity` modelled by `⊤`/`⊥`), and `dimension_stats` holds
one `dimStatAt` entry per coordinate `i < dimensions`. -/
noncomputable def calculateVectorStatistics (vectors : List (List ℚ)) :
    Option VectorStats :=
  match vectors with
  | [] => none
  | v0 :: rest =>
    let vs := v0 :: rest
    let dims := v0.length
    let magnitudes := vs.map magnitudeQ
    let minMag : WithTop ℝ :=
      magnitudes.foldl (fun (acc : WithTop ℝ) (m : ℝ) =>
        min acc (m : WithTop ℝ)) ⊤
    let maxMag : WithBot ℝ :=
      magnitudes.foldl (fun (acc : WithBot ℝ) (m : ℝ) =>
        max acc (m : WithBot ℝ)) ⊥
    let meanMag : ℝ :=
      magnitudes.foldl (· + ·) 0 / (magnitudes.length : ℝ)
    let dstats := (List.range dims).map (dimStatAt vs)
    some { count := vs.length
           dimensions := dims
           mean_magnitude := meanMag
           min_magnitude := minMag
           max_magnitude := maxMag
           dimension_stats := dstats }

/-- The arithmetic mean of a list of values, written as the specification
states it (sum divided by the number of values). -/
def specArithMean (l : List ℚ) : ℚ := l.sum / (l.length : ℚ)

/-- The population standard deviation of a list of values, written as the
specification states it: the square root of the mean squared deviation,
with divisor `count`. -/
noncomputable def specPopStd (l : List ℚ) : ℝ :=
  Real.sqrt ((((l.map fun x => (x - specArithMean l) ^ 2).sum /
    (l.length : ℚ) : ℚ) : ℝ))

/-- The `i`-th coordinate of every vector, in input order. -/
def coordColumn (vectors : List (List ℚ)) (i : ℕ) : List ℚ :=
  vectors.map fun v => v.getD i 0

/-! ### Helper lemmas -/

/-- Unfolding the batch loop once more than needed: past the end of the
list the loop exits with the accumulator. -/
theorem batchProcessAux_exit (processFn : α → β) (batchSize : ℕ)
    (vectors : List α) (fuel i : ℕ) (acc : List β)
    (h : ¬ i < vectors.length) :
    batchProcessAux processFn batchSize vectors (fuel + 1) i acc = some acc := by
  simp [batchProcessAux, h]

/-- Loop invariant of `batchProcessAux` for a positive batch size: with
fuel exceeding the remaining item count, the loop returns the accumulator
followed by the image of the remaining items. -/
theorem batchProcessAux_spec (processFn : α → β) (batchSize : ℕ)
    (hb : 1 ≤ batchSize) (vectors : List α) :
    ∀ (fuel i : ℕ) (acc : List β), vectors.length - i < fuel →
      batchProcessAux processFn batchSize vectors fuel i acc =
        some (acc ++ (vectors.drop i).map processFn) := by
  intro fuel
  induction fuel with
  | zero => intro i acc h; omega
  | succ f ih =>
    intro i acc h
    by_cases hi : i < vectors.length
    · have hrec := ih (i + batchSize)
        (acc ++ ((vectors.drop i).take batchSize).map processFn) (by omega)
      simp only [batchProcessAux, hi, if_true]
      rw [hrec, List.append_assoc, ← List.map_append]
      have hdrop : (vectors.drop i).take batchSize ++ vectors.drop (i + batchSize)
          = vectors.drop i := by
        rw [← List.drop_drop]
        exact List.take_append_drop batchSize (vectors.drop i)
      rw [hdrop]
    · rw [batchProcessAux_exit _ _ _ _ _ _ hi]
      rw [List.drop_eq_nil_of_le (by omega)]
      simp

/-- With batch size zero and a nonempty list, the loop index never
advances, so no amount of fuel makes the loop terminate. -/
theorem batchProcessAux_zero_batch (processFn : α → β) (vectors : List α)
    (h : vectors ≠ []) :
    ∀ (fuel : ℕ) (acc : List β),
      batchProcessAux processFn 0 vectors fuel 0 acc = none := by
  intro fuel
  induction fuel with
  | zero => intro acc; rfl
  | succ f ih =>
    intro acc
    have hlen : 0 < vectors.length := List.length_pos.mpr h
    simp only [batchProcessAux, hlen, if_true]
    simpa using ih acc

/-! ### Claims C9 and C10: `VectorUtils.batchProcess` -/

/-- C9 (counterexample): with chunk size `0` and a nonempty list the JS
loop never advances its index, so `batchProcess` does not produce the
single-pass map of the list — the run diverges (modelled by fuel
exhaustion, which `batchProcessAux_zero_batch` shows is not a fuel
artifact), so chunk size is not output-irrelevant for every `batchSize`. -/
theorem claim_C9_counterexample :
    batchProcess [(0 : ℚ)] (fun x => x) 0 = none ∧
      [(0 : ℚ)].map (fun x => x) = [(0 : ℚ)] := by
  constructor
  · exact batchProcessAux_zero_batch (fun x => x) [(0 : ℚ)] (by simp) 2 []
  · rfl

/-- C9 (amended): for every list of items, every function and every chunk
size `batchSize ≥ 1`, `batchProcess` terminates and produces exactly the
ordered results of a single-pass map over the items; the chunking has no
effect on the output.  (As stated over *every* chunk size the claim fails:
`batchSize = 0` diverges on nonempty input.) -/
theorem claim_C9_batchProcess_eq_map {α β : Type} (items : List α)
    (fn : α → β) (batchSize : ℕ) (hb : 1 ≤ batchSize) :
    batchProcess items fn batchSize = some (items.map fn) := by
  unfold batchProcess
  rw [batchProcessAux_spec fn batchSize hb items (items.length + 1) 0 []
    (by omega)]
  simp

/-- C9 (witness): the amended theorem applied at a concrete list, function
and chunk size. -/
theorem claim_C9_witness :
    1 ≤ 2 ∧ batchProcess [(1 : ℚ), 2, 3] (fun x => x + x) 2 =
      some ([(1 : ℚ), 2, 3].map (fun x => x + x)) :=
  ⟨by decide, claim_C9_batchProcess_eq_map [(1 : ℚ), 2, 3] (fun x => x + x) 2
    (by decide)⟩

/-- C10: `batchProcess` terminates on every finite input list when
`batchSize ≥ 1` (the loop index strictly increases each iteration), and the
positivity of `batchSize` is a genuine precondition: the code never checks
it, and on the same nonempty input with `batchSize = 0` the loop diverges
(the fuelled model exhausts any fuel allotment). -/
theorem claim_C10_batchProcess_termination {α β : Type} (items : List α)
    (fn : α → β) (batchSize : ℕ) (hb : 1 ≤ batchSize) (hne : items ≠ []) :
    (batchProcess items fn batchSize).isSome = true ∧
      batchProcess items fn 0 = none := by
  constructor
  · unfold batchProcess
    rw [batchProcessAux_spec fn batchSize hb items (items.length + 1) 0 []
      (by omega)]
    rfl
  · exact batchProcessAux_zero_batch fn items hne (items.length + 1) []

/-- C10 (witness): the termination theorem applied at a concrete nonempty
list and positive batch size. -/
theorem claim_C10_witness :
    1 ≤ 1 ∧ ([(5 : ℚ)] : List ℚ) ≠ [] ∧
      ((batchProcess [(5 : ℚ)] (fun x => x) 1).isSome = true ∧
        batchProcess [(5 : ℚ)] (fun x => x) 0 = none) :=
  ⟨by decide, by simp,
    claim_C10_batchProcess_termination [(5 : ℚ)] (fun x => x) 1 (by decide)
      (by simp)⟩

/-! ### Claim C6: pagination of `VectorService.listVectors` -/

/-- For a positive divisor, the natural ceiling of the rational quotient of
two naturals is the usual rounded-up natural division. -/
theorem natCeil_cast_div (a b : ℕ) (hb : 0 < b) :
    ⌈(a : ℚ) / (b : ℚ)⌉₊ = (a + b - 1) / b := by
  have hbq : (0 : ℚ) < (b : ℚ) := by exact_mod_cast hb
  apply le_antisymm
  · rw [Nat.ceil_le, div_le_iff₀ hbq]
    have h1 : a ≤ (a + b - 1) / b * b := by
      rw [Nat.mul_comm]
      have hd := Nat.div_add_mod (a + b - 1) b
      have hm : (a + b - 1) % b < b := Nat.mod_lt _ hb
      omega
    exact_mod_cast h1
  · rw [Nat.div_le_iff_le_mul_add_pred hb]
    have h2 : (a : ℚ) ≤ (⌈(a : ℚ) / (b : ℚ)⌉₊ : ℚ) * b := by
      have hle := Nat.le_ceil ((a : ℚ) / (b : ℚ))
      have := mul_le_mul_of_nonneg_right hle (le_of_lt hbq)
      rwa [div_mul_cancel₀ _ (ne_of_gt hbq)] at this
    have h3 : a ≤ ⌈(a : ℚ) / (b : ℚ)⌉₊ * b := by exact_mod_cast h2
    generalize hN : ⌈(a : ℚ) / (b : ℚ)⌉₊ = N at h3 ⊢
    generalize ht : N * b = t at h3
    rw [Nat.mul_comm b N, ht]
    omega

/-- C6: for every requested page ≥ 1 and limit ≥ 1, the pagination object
computed by `listVectors` carries the request and the count back
unchanged, `total_pages = ⌈total_items / limit⌉` (equivalently the
rounded-up natural division), `has_next` exactly when
`page · limit < total_items`, and `has_prev` exactly when `page > 1`; in
particular with 25 matching records and limit 10, page 1 yields
`total_pages = 3`, `has_next = true`, `has_prev = false`, and page 3
yields `has_next = false`, `has_prev = true`. -/
theorem claim_C6_listPagination (page limit total : ℕ) (hp : 1 ≤ page)
    (hl : 1 ≤ limit) :
    (listPagination page limit total).current_page = page ∧
    (listPagination page limit total).per_page = limit ∧
    (listPagination page limit total).total_items = total ∧
    (listPagination page limit total).total_pages =
      (total + limit - 1) / limit ∧
    ((listPagination page limit total).has_next = true ↔
      page * limit < total) ∧
    ((listPagination page limit total).has_prev = true ↔ 1 < page) ∧
    (listPagination 1 10 25).total_pages = 3 ∧
    (listPagination 1 10 25).has_next = true ∧
    (listPagination 1 10 25).has_prev = false ∧
    (listPagination 3 10 25).total_pages = 3 ∧
    (listPagination 3 10 25).has_next = false ∧
    (listPagination 3 10 25).has_prev = true := by
  have h25 : (listPagination 1 10 25).total_pages = 3 := by
    show ⌈((25 : ℕ) : ℚ) / ((10 : ℕ) : ℚ)⌉₊ = 3
    rw [natCeil_cast_div 25 10 (by norm_num)]
  refine ⟨rfl, rfl, rfl, natCeil_cast_div total limit hl, by simp [listPagination],
    by simp [listPagination], h25, by simp [listPagination], by simp [listPagination],
    h25, by simp [listPagination], by simp [listPagination]⟩

/-- C6 (witness): the pagination theorem applied at page 1, limit 10,
total 25. -/
theorem claim_C6_witness :
    1 ≤ 1 ∧ 1 ≤ 10 ∧
      ((listPagination 1 10 25).current_page = 1 ∧
       (listPagination 1 10 25).per_page = 10 ∧
       (listPagination 1 10 25).total_items = 25 ∧
       (listPagination 1 10 25).total_pages = (25 + 10 - 1) / 10 ∧
       ((listPagination 1 10 25).has_next = true ↔ 1 * 10 < 25) ∧
       ((listPagination 1 10 25).has_prev = true ↔ 1 < 1) ∧
       (listPagination 1 10 25).total_pages = 3 ∧
       (listPagination 1 10 25).has_next = true ∧
       (listPagination 1 10 25).has_prev = false ∧
       (listPagination 3 10 25).total_pages = 3 ∧
       (listPagination 3 10 25).has_next = false ∧
       (listPagination 3 10 25).has_prev = true) :=
  ⟨by decide, by decide,
    claim_C6_listPagination 1 10 25 (by decide) (by decide)⟩

/-! ### Claim C4: `validateVector` and `isValidVector` on non-finite
elements -/

/-- C4 (counterexample): a vector containing `Infinity` passes
`validateVector` (the code checks `typeof val === 'number' && !isNaN(val)`
only, and `isNaN(Infinity)` is false), so `validateVector` does not fail
with `InvalidNumbers` on every non-finite element, even though
`isValidVector` does return false on the same input. -/
theorem claim_C4_counterexample :
    validateVector [JSNum.fin 1, JSNum.inf] none 4096 = Except.ok true ∧
      isValidVector [JSNum.fin 1, JSNum.inf] = false := by
  constructor <;> rfl

/-- C4 (amended): for a nonempty vector within the configured maximum
dimension and with no expected-dimension constraint, `validateVector`
fails with `InvalidNumbers` exactly when some element is `NaN` — an
`Infinity` element passes validation — while `isValidVector` returns
`false` exactly when some element is non-finite (`NaN` or `±Infinity`),
i.e. returns `true` only when every element is a finite real number. -/
theorem claim_C4_validateVector (v : List JSNum) (maxDimensions : ℕ)
    (hne : v ≠ []) (hlen : v.length ≤ maxDimensions) :
    (validateVector v none maxDimensions =
        Except.error ValidateErr.InvalidNumbers ↔ JSNum.nan ∈ v) ∧
    (JSNum.nan ∉ v →
      validateVector v none maxDimensions = Except.ok true) ∧
    (isValidVector v = false ↔ ∃ x ∈ v, x.isFiniteb = false) := by
  have hlen0 : ¬ v.length = 0 := by
    simpa [List.length_eq_zero] using hne
  have hnanAll : (v.all fun val => !val.isNaNb) = true ↔ JSNum.nan ∉ v := by
    simp only [List.all_eq_true, Bool.not_eq_true']
    constructor
    · intro h hmem
      have := h _ hmem
      simp [JSNum.isNaNb] at this
    · intro h x hx
      cases x with
      | nan => exact absurd hx h
      | inf => rfl
      | ninf => rfl
      | fin q => rfl
  refine ⟨?_, ?_, ?_⟩
  · constructor
    · intro hval
      by_contra hnot
      have hall : (v.all fun val => !val.isNaNb) = true := hnanAll.mpr hnot
      simp [validateVector, hlen0, hall, Nat.not_lt.mpr hlen] at hval
    · intro hmem
      have hall : ¬ (v.all fun val => !val.isNaNb) = true := by
        intro hall
        exact absurd hmem (hnanAll.mp hall).elim
      simp [validateVector, hlen0, hall]
  · intro hmem
    have hall : (v.all fun val => !val.isNaNb) = true := hnanAll.mpr hmem
    simp [validateVector, hlen0, hall, Nat.not_lt.mpr hlen]
  · simp only [isValidVector, List.all_eq_false]
    constructor
    · rintro ⟨x, hx, hfx⟩
      refine ⟨x, hx, ?_⟩
      cases x <;> simp_all [JSNum.isNaNb, JSNum.isFiniteb]
    · rintro ⟨x, hx, hfx⟩
      refine ⟨x, hx, ?_⟩
      cases x <;> simp_all [JSNum.isNaNb, JSNum.isFiniteb]

/-- C4 (witness): the amended theorem applied to the concrete vector
`[1, Infinity]`. -/
theorem claim_C4_witness :
    ([JSNum.fin 1, JSNum.inf] : List JSNum) ≠ [] ∧
      ([JSNum.fin 1, JSNum.inf] : List JSNum).length ≤ 4096 ∧
      ((validateVector [JSNum.fin 1, JSNum.inf] none 4096 =
          Except.error ValidateErr.InvalidNumbers ↔
          JSNum.nan ∈ ([JSNum.fin 1, JSNum.inf] : List JSNum)) ∧
       (JSNum.nan ∉ ([JSNum.fin 1, JSNum.inf] : List JSNum) →
         validateVector [JSNum.fin 1, JSNum.inf] none 4096 =
           Except.ok true) ∧
       (isValidVector [JSNum.fin 1, JSNum.inf] = false ↔
         ∃ x ∈ ([JSNum.fin 1, JSNum.inf] : List JSNum),
           x.isFiniteb = false)) :=
  ⟨by decide, by decide,
    claim_C4_validateVector [JSNum.fin 1, JSNum.inf] 4096 (by decide)
      (by decide)⟩

/-! ### Claim C7: `VectorService.findSimilarVectors` -/

/-- C7: for every query vector and options, `findSimilarVectors` reports
`query_vector_dimensions` equal to the query vector's length, returns at
most `limit` results (given the backend capability's contract of bounding
the cursor by the requested limit), each result being the cursor document's
id, vector and metadata together with its similarity score, in cursor
order with no re-sort; `total_results` equals the number of returned
results; and when both `created_after` and `created_before` are supplied
the built filter carries the single range constraint
`{$gte: created_after, $lte: created_before}` on `metadata.created_at`. -/
theorem claim_C7_findSimilarVectors (backend : SimFilter → ℕ → List SimDoc)
    (queryVector : List ℚ) (limit : ℕ) (filters : SimilarityFilters)
    (hb : (backend (buildSimilarityFilter filters) limit).length ≤ limit) :
    (findSimilarVectors backend queryVector limit
        filters).query_vector_dimensions = queryVector.length ∧
    (findSimilarVectors backend queryVector limit filters).results.length ≤
      limit ∧
    (findSimilarVectors backend queryVector limit filters).total_results =
      (findSimilarVectors backend queryVector limit
        filters).results.length ∧
    (findSimilarVectors backend queryVector limit filters).results =
      (backend (buildSimilarityFilter filters) limit).map (fun d =>
        { id := d.docId, vector := d.vector, metadata := d.metadata,
          similarity_score := d.similarity }) ∧
    (filters.created_after.isSome → filters.created_before.isSome →
      (buildSimilarityFilter filters).created_at =
        some ⟨filters.created_after, filters.created_before⟩) := by
  refine ⟨rfl, ?_, rfl, rfl, ?_⟩
  · simpa [findSimilarVectors] using hb
  · intro ha hbef
    rcases hu : filters.created_after with _ | a
    · simp [hu] at ha
    rcases hv : filters.created_before with _ | b
    · simp [hv] at hbef
    cases h1 : filters.user_id <;> cases h2 : filters.source_type <;>
      cases h3 : filters.source_id <;> cases h4 : filters.tags <;>
      simp [buildSimilarityFilter, h1, h2, h3, h4, hu, hv]

/-- C7 (witness): the theorem applied to a concrete (empty-cursor) backend,
a 3-dimensional query vector, limit 5, and filters carrying both date
bounds. -/
theorem claim_C7_witness :
    (((fun _ _ => []) : SimFilter → ℕ → List SimDoc)
        (buildSimilarityFilter
          ⟨some "u1", none, none, none, some "2024-01-01",
            some "2024-12-31"⟩) 5).length ≤ 5 ∧
    ((findSimilarVectors (fun _ _ => []) [(1 : ℚ), 2, 3] 5
        ⟨some "u1", none, none, none, some "2024-01-01",
          some "2024-12-31"⟩).query_vector_dimensions =
        ([(1 : ℚ), 2, 3] : List ℚ).length ∧
      (findSimilarVectors (fun _ _ => []) [(1 : ℚ), 2, 3] 5
        ⟨some "u1", none, none, none, some "2024-01-01",
          some "2024-12-31"⟩).results.length ≤ 5 ∧
      (findSimilarVectors (fun _ _ => []) [(1 : ℚ), 2, 3] 5
        ⟨some "u1", none, none, none, some "2024-01-01",
          some "2024-12-31"⟩).total_results =
        (findSimilarVectors (fun _ _ => []) [(1 : ℚ), 2, 3] 5
          ⟨some "u1", none, none, none, some "2024-01-01",
            some "2024-12-31"⟩).results.length ∧
      (findSimilarVectors (fun _ _ => []) [(1 : ℚ), 2, 3] 5
        ⟨some "u1", none, none, none, some "2024-01-01",
          some "2024-12-31"⟩).results =
        (((fun _ _ => []) : SimFilter → ℕ → List SimDoc)
          (buildSimilarityFilter
            ⟨some "u1", none, none, none, some "2024-01-01",
              some "2024-12-31"⟩) 5).map (fun d =>
          { id := d.docId, vector := d.vector, metadata := d.metadata,
            similarity_score := d.similarity }) ∧
      ((⟨some "u1", none, none, none, some "2024-01-01",
          some "2024-12-31"⟩ : SimilarityFilters).created_after.isSome →
        (⟨some "u1", none, none, none, some "2024-01-01",
          some "2024-12-31"⟩ : SimilarityFilters).created_before.isSome →
        (buildSimilarityFilter
          ⟨some "u1", none, none, none, some "2024-01-01",
            some "2024-12-31"⟩).created_at =
          some ⟨some "2024-01-01", some "2024-12-31"⟩)) :=
  ⟨by simp,
    claim_C7_findSimilarVectors (fun _ _ => []) [(1 : ℚ), 2, 3] 5
      ⟨some "u1", none, none, none, some "2024-01-01", some "2024-12-31"⟩
      (by simp)⟩

/-! ### Claim C1: metadata handling of `VectorService.updateVector` -/

/-- C1 (counterexample): updating a stored record whose metadata holds
`user_id` with the payload `{metadata: {tags: [...]}}` succeeds but drops
`user_id` from the stored metadata (the `$set` carries the whole new
metadata object, so omitted keys are *not* retained); and updating with a
vector only (`{vector: [...]}`) succeeds without touching `updated_at`,
which keeps its old value instead of being reset to now. -/
theorem claim_C1_counterexample :
    updateVector
        [⟨"v1", [(1 : ℚ), 2],
          [("user_id", MetaVal.str "u"), ("updated_at", MetaVal.str "t0"),
           ("dimensions", MetaVal.num 2)]⟩] "t1" "v1"
        ⟨none, some [("tags", MetaVal.strList ["x"])]⟩ =
      Except.ok
        (⟨"v1", [(1 : ℚ), 2],
          [("updated_at", MetaVal.str "t1"),
           ("tags", MetaVal.strList ["x"])]⟩,
         [⟨"v1", [(1 : ℚ), 2],
           [("updated_at", MetaVal.str "t1"),
            ("tags", MetaVal.strList ["x"])]⟩]) ∧
    metaLookup [("updated_at", MetaVal.str "t1"),
      ("tags", MetaVal.strList ["x"])] "user_id" = none ∧
    updateVector
        [⟨"v1", [(1 : ℚ), 2],
          [("user_id", MetaVal.str "u"), ("updated_at", MetaVal.str "t0"),
           ("dimensions", MetaVal.num 2)]⟩] "t1" "v1"
        ⟨some [(3 : ℚ), 4, 5], none⟩ =
      Except.ok
        (⟨"v1", [(3 : ℚ), 4, 5],
          [("user_id", MetaVal.str "u"), ("updated_at", MetaVal.str "t0"),
           ("dimensions", MetaVal.num 2)]⟩,
         [⟨"v1", [(3 : ℚ), 4, 5],
           [("user_id", MetaVal.str "u"), ("updated_at", MetaVal.str "t0"),
            ("dimensions", MetaVal.num 2)]⟩]) ∧
    metaLookup [("user_id", MetaVal.str "u"),
      ("updated_at", MetaVal.str "t0"), ("dimensions", MetaVal.num 2)]
      "updated_at" = some (MetaVal.str "t0") ∧
    MetaVal.str "t0" ≠ MetaVal.str "t1" := by
  refine ⟨by rfl, by decide, by rfl, by decide, by decide⟩

/-- C1 (amended): for every existing record id, `update(id, partial)`
keeps the stored vector when no vector is supplied; when no metadata
payload is supplied the stored metadata (including `updated_at`) is left
entirely unchanged; and when a metadata payload is supplied the stored
metadata object is replaced wholesale by the payload with `updated_at` set
to now and, only when a vector is also supplied, `dimensions` recomputed —
metadata keys omitted from the payload are dropped, not retained. -/
theorem claim_C1_update_metadata (store : Store) (now id : String)
    (u : UpdateData) (d : Doc)
    (hd : store.find? (fun x => x.docId = id) = some d) :
    ∃ r s', updateVector store now id u = Except.ok (r, s') ∧
      r.vector = u.vector.getD d.vector ∧
      (u.metadata = none → r.metadata = d.metadata) ∧
      ∀ m, u.metadata = some m →
        metaLookup r.metadata "updated_at" = some (MetaVal.str now) ∧
        (∀ k, k ≠ "updated_at" → k ≠ "dimensions" →
          metaLookup r.metadata k = List.lookup k m) ∧
        (∀ w, u.vector = some w →
          metaLookup r.metadata "dimensions" =
            some (MetaVal.num w.length)) ∧
        (u.vector = none →
          metaLookup r.metadata "dimensions" = List.lookup "dimensions" m) := by
  refine ⟨applySet d (buildUpdateDoc now u).1 (buildUpdateDoc now u).2,
    store.map fun x =>
      if x.docId = id then
        applySet x (buildUpdateDoc now u).1 (buildUpdateDoc now u).2
      else x, ?_, ?_, ?_, ?_⟩
  · simp [updateVector, updateVectorInner, hd, Except.mapError]
  · rfl
  · intro hm
    simp [applySet, buildUpdateDoc, hm]
  · intro m hm
    refine ⟨?_, ?_, ?_, ?_⟩
    · cases hv : u.vector <;>
        simp [applySet, buildUpdateDoc, hm, hv, metaLookup, List.lookup]
    · intro k hk1 hk2
      have e1 : (k == "updated_at") = false := beq_eq_false_iff_ne.mpr hk1
      have e2 : (k == "dimensions") = false := beq_eq_false_iff_ne.mpr hk2
      cases hv : u.vector <;>
        simp [applySet, buildUpdateDoc, hm, hv, metaLookup, List.lookup,
          e1, e2]
    · intro w hv
      simp [applySet, buildUpdateDoc, hm, hv, metaLookup, List.lookup]
    · intro hv
      simp [applySet, buildUpdateDoc, hm, hv, metaLookup, List.lookup]

/-- C1 (witness): the amended theorem applied to a concrete one-record
store and a tag-only metadata update. -/
theorem claim_C1_witness :
    ([⟨"v1", [(1 : ℚ), 2],
        [("user_id", MetaVal.str "u")]⟩] : Store).find?
      (fun x => x.docId = "v1") =
        some ⟨"v1", [(1 : ℚ), 2], [("user_id", MetaVal.str "u")]⟩ ∧
    ∃ r s',
      updateVector [⟨"v1", [(1 : ℚ), 2], [("user_id", MetaVal.str "u")]⟩]
          "t1" "v1" ⟨none, some [("tags", MetaVal.strList ["x"])]⟩ =
        Except.ok (r, s') ∧
      r.vector = (none : Option (List ℚ)).getD [(1 : ℚ), 2] ∧
      ((some [("tags", MetaVal.strList ["x"])] : Option Meta) = none →
        r.metadata = [("user_id", MetaVal.str "u")]) ∧
      ∀ m, (some [("tags", MetaVal.strList ["x"])] : Option Meta) = some m →
        metaLookup r.metadata "updated_at" = some (MetaVal.str "t1") ∧
        (∀ k, k ≠ "updated_at" → k ≠ "dimensions" →
          metaLookup r.metadata k = List.lookup k m) ∧
        (∀ w, (none : Option (List ℚ)) = some w →
          metaLookup r.metadata "dimensions" =
            some (MetaVal.num w.length)) ∧
        ((none : Option (List ℚ)) = none →
          metaLookup r.metadata "dimensions" =
            List.lookup "dimensions" m) :=
  ⟨by decide,
    claim_C1_update_metadata
      [⟨"v1", [(1 : ℚ), 2], [("user_id", MetaVal.str "u")]⟩] "t1" "v1"
      ⟨none, some [("tags", MetaVal.strList ["x"])]⟩
      ⟨"v1", [(1 : ℚ), 2], [("user_id", MetaVal.str "u")]⟩ (by decide)⟩

/-! ### Claim C2: the `metadata.dimensions` invariant across writes -/

/-- C2 (code bug): `createVector` does set `metadata.dimensions` to the
vector length, but an update supplying a new vector *without* a metadata
payload leaves the stored metadata untouched (the `dimensions` recompute
at line 83 sits inside the `if (updateData.metadata)` branch), so after
`update(id, {vector: [3,4,5]})` on a record created with a 2-dimensional
vector the stored record has a 3-element vector with
`metadata.dimensions = 2`, violating the invariant the spec states. -/
theorem claim_C2_dimensions_bug :
    metaLookup
        (createVector "v1" "t0"
          ⟨[(1 : ℚ), 2], [("user_id", MetaVal.str "u")]⟩ []).1.metadata
        "dimensions" = some (MetaVal.num 2) ∧
    updateVector
        (createVector "v1" "t0"
          ⟨[(1 : ℚ), 2], [("user_id", MetaVal.str "u")]⟩ []).2
        "t1" "v1" ⟨some [(3 : ℚ), 4, 5], none⟩ =
      Except.ok
        (⟨"v1", [(3 : ℚ), 4, 5],
          [("updated_at", MetaVal.str "t0"),
           ("created_at", MetaVal.str "t0"),
           ("dimensions", MetaVal.num 2),
           ("user_id", MetaVal.str "u")]⟩,
         [⟨"v1", [(3 : ℚ), 4, 5],
           [("updated_at", MetaVal.str "t0"),
            ("created_at", MetaVal.str "t0"),
            ("dimensions", MetaVal.num 2),
            ("user_id", MetaVal.str "u")]⟩]) ∧
    ([(3 : ℚ), 4, 5] : List ℚ).length = 3 ∧
    metaLookup
        [("updated_at", MetaVal.str "t0"),
         ("created_at", MetaVal.str "t0"),
         ("dimensions", MetaVal.num 2),
         ("user_id", MetaVal.str "u")] "dimensions" =
      some (MetaVal.num 2) ∧
    MetaVal.num 2 ≠ MetaVal.num 3 := by
  refine ⟨by decide, by rfl, by decide, by decide, by decide⟩

/-! ### Claim C3: `NotFound` mapping at the route boundary -/

/-- C3 (code bug): for an absent id the service throws
`Vector not found` but its catch-all wrapper re-throws it as
`Failed to ... vector: Vector not found`; the routes map to 404 only when
the message is exactly `Vector not found`, so for all three operations the
not-found case falls through to the generic error handler instead of the
distinct 404 outcome — the NotFound condition is not distinguishable to
the boundary in the way the claim requires. -/
theorem claim_C3_notfound_not_mapped :
    routeGetById [] "missing" =
      RouteOutcome.nextError "Failed to get vector: Vector not found" ∧
    routeGetById [] "missing" ≠ RouteOutcome.notFound ∧
    routePut [] "t1" "missing" ⟨none, none⟩ =
      RouteOutcome.nextError "Failed to update vector: Vector not found" ∧
    routePut [] "t1" "missing" ⟨none, none⟩ ≠ RouteOutcome.notFound ∧
    routeDelete [] "missing" =
      RouteOutcome.nextError "Failed to delete vector: Vector not found" ∧
    routeDelete [] "missing" ≠ RouteOutcome.notFound := by
  refine ⟨by decide, by decide, by decide, by decide, by decide, by decide⟩

/-! ### Claim C5: `VectorUtils.cosineSimilarity` -/

/-- Accumulating a sum over a fold equals the initial value plus the sum
of the mapped list. -/
theorem foldl_add_map {α M : Type} [AddCommMonoid M] (f : α → M) :
    ∀ (l : List α) (init : M),
      l.foldl (fun s x => s + f x) init = init + (l.map f).sum := by
  intro l
  induction l with
  | nil => simp
  | cons a t ih => intro init; simp [ih, add_assoc]

/-- The fused accumulator loop of `cosineSimilarity`, componentwise: the
triple fold computes the three mapped sums. -/
theorem foldl_triple (l : List (ℝ × ℝ)) :
    ∀ (d na nb : ℝ),
      l.foldl (fun (acc : ℝ × ℝ × ℝ) p =>
        (acc.1 + p.1 * p.2, acc.2.1 + p.1 * p.1, acc.2.2 + p.2 * p.2))
        (d, na, nb) =
      (d + (l.map fun p => p.1 * p.2).sum,
       na + (l.map fun p => p.1 * p.1).sum,
       nb + (l.map fun p => p.2 * p.2).sum) := by
  induction l with
  | nil => simp
  | cons a t ih => intro d na nb; simp [ih, add_assoc]

/-- For equal-length vectors, the squared first components of the zip are
the squares of the first vector. -/
theorem map_sq_fst_zip (a b : List ℝ) (h : a.length = b.length) :
    ((a.zip b).map fun p => p.1 * p.1) = a.map fun x => x * x := by
  rw [show (fun (p : ℝ × ℝ) => p.1 * p.1) =
      (fun x => x * x) ∘ Prod.fst from rfl]
  rw [← List.map_map, List.map_fst_zip _ _ (le_of_eq h)]

/-- For equal-length vectors, the squared second components of the zip are
the squares of the second vector. -/
theorem map_sq_snd_zip (a b : List ℝ) (h : a.length = b.length) :
    ((a.zip b).map fun p => p.2 * p.2) = b.map fun x => x * x := by
  rw [show (fun (p : ℝ × ℝ) => p.2 * p.2) =
      (fun x => x * x) ∘ Prod.snd from rfl]
  rw [← List.map_map, List.map_snd_zip _ _ (ge_of_eq h)]

/-- Closed form of `cosineSimilarity` on equal-length vectors: the pairwise
product sum divided by the product of the magnitudes (a Lean division by a
zero magnitude yields `0`, matching the code's explicit zero case). -/
theorem cosineSimilarity_eq (a b : List ℝ) (h : a.length = b.length) :
    cosineSimilarity a b = Except.ok
      (((a.zip b).map fun p => p.1 * p.2).sum /
        (magnitude a * magnitude b)) := by
  have hne : ¬ a.length ≠ b.length := not_not.mpr h
  unfold cosineSimilarity magnitude
  rw [if_neg hne]
  simp only [foldl_triple, foldl_add_map, zero_add,
    map_sq_fst_zip a b h, map_sq_snd_zip a b h]
  by_cases h0 :
      Real.sqrt ((a.map fun x => x * x).sum) *
        Real.sqrt ((b.map fun x => x * x).sum) = 0
  · rw [if_pos h0, h0, div_zero]
  · rw [if_neg h0]

/-- C5: for all vectors of equal length, `cosineSimilarity(a, b)` equals
`dotProduct(a, b)` divided by `magnitude(a) · magnitude(b)`, and equals `0`
when either magnitude is `0`; for vectors of unequal length it fails with
the dimension-mismatch error. -/
theorem claim_C5_cosineSimilarity (a b : List ℝ) :
    (∀ h : a.length = b.length,
      (∀ d : ℝ, dotProduct a b = Except.ok d →
        cosineSimilarity a b =
          Except.ok (d / (magnitude a * magnitude b))) ∧
      (magnitude a = 0 ∨ magnitude b = 0 →
        cosineSimilarity a b = Except.ok 0)) ∧
    (a.length ≠ b.length →
      cosineSimilarity a b = Except.error VecErr.DimensionMismatch) := by
  constructor
  · intro h
    have hne : ¬ a.length ≠ b.length := not_not.mpr h
    constructor
    · intro d hd
      unfold dotProduct at hd
      rw [if_neg hne] at hd
      have hd' : ((a.zip b).map fun p => p.1 * p.2).sum = d := by
        have := congrArg (fun e => e.toOption.getD 0) hd
        simpa [foldl_add_map] using this
      rw [cosineSimilarity_eq a b h, hd']
    · intro h0
      rw [cosineSimilarity_eq a b h]
      rcases h0 with h0 | h0 <;> rw [h0] <;> simp
  · intro hne
    unfold cosineSimilarity
    rw [if_pos hne]

/-- C5 (witness): the theorem applied to the concrete orthogonal pair
`([1, 0], [0, 1])`, with the equal-length and dot-product hypotheses
discharged by evaluation. -/
theorem claim_C5_witness :
    ([(1 : ℝ), 0] : List ℝ).length = ([(0 : ℝ), 1] : List ℝ).length ∧
    dotProduct [(1 : ℝ), 0] [(0 : ℝ), 1] = Except.ok 0 ∧
    cosineSimilarity [(1 : ℝ), 0] [(0 : ℝ), 1] =
      Except.ok (0 / (magnitude [(1 : ℝ), 0] * magnitude [(0 : ℝ), 1])) := by
  have hlen : ([(1 : ℝ), 0] : List ℝ).length =
      ([(0 : ℝ), 1] : List ℝ).length := rfl
  have hdot : dotProduct [(1 : ℝ), 0] [(0 : ℝ), 1] = Except.ok 0 := by
    unfold dotProduct
    norm_num
  exact ⟨hlen, hdot, ((claim_C5_cosineSimilarity _ _).1 hlen).1 0 hdot⟩

/-! ### Claim C8: `VectorUtils.calculateVectorStatistics` -/

/-- The incremental `Math.min` fold (initialized with `Infinity`, modelled
by an accumulator in `WithTop`) computes the list minimum below the
initial value. -/
theorem foldl_min_eq {α : Type} [LinearOrder α] (l : List α) :
    ∀ acc : WithTop α,
      l.foldl (fun (a : WithTop α) (v : α) => min a (v : WithTop α)) acc =
        min acc l.minimum := by
  induction l with
  | nil => intro acc; simp [List.minimum_nil]
  | cons a t ih =>
    intro acc
    rw [List.foldl_cons, ih, List.minimum_cons, min_assoc]

/-- The incremental `Math.max` fold (initialized with `-Infinity`, modelled
by an accumulator in `WithBot`) computes the list maximum above the
initial value. -/
theorem foldl_max_eq {α : Type} [LinearOrder α] (l : List α) :
    ∀ acc : WithBot α,
      l.foldl (fun (a : WithBot α) (v : α) => max a (v : WithBot α)) acc =
        max acc l.maximum := by
  induction l with
  | nil => intro acc; simp [List.maximum_nil]
  | cons a t ih =>
    intro acc
    rw [List.foldl_cons, ih, List.maximum_cons, max_assoc]

/-- Reading the `i`-th entry of a mapped range. -/
theorem getD_map_range {β : Type} (f : ℕ → β) (n i : ℕ) (hi : i < n)
    (dflt : β) : ((List.range n).map f).getD i dflt = f i := by
  rw [List.getD_eq_getElem?_getD, List.getElem?_map, List.getElem?_range hi]
  rfl

/-- The reduce-then-divide mean of the statistics loop is the arithmetic
mean. -/
theorem mean_fold_eq (l : List ℚ) :
    l.foldl (fun sum val => sum + val) 0 / (l.length : ℚ) =
      specArithMean l := by
  rw [specArithMean, show (fun (sum val : ℚ) => sum + val) =
    (fun sum val => sum + id val) from rfl, foldl_add_map]
  simp

/-- The squared-deviation fold divided by the count is the mean squared
deviation. -/
theorem variance_fold_eq (l : List ℚ) (m : ℚ) :
    l.foldl (fun sum val => sum + (val - m) * (val - m)) 0 /
        (l.length : ℚ) =
      ((l.map fun x => (x - m) ^ 2).sum) / (l.length : ℚ) := by
  rw [show (fun (sum val : ℚ) => sum + (val - m) * (val - m)) =
    (fun sum val => sum + (fun x => (x - m) * (x - m)) val) from rfl]
  rw [foldl_add_map]
  simp [pow_two]

/-- The `mean` field of a `dimension_stats` entry is the arithmetic mean
of the coordinate column. -/
theorem dimStatAt_mean (vs : List (List ℚ)) (i : ℕ) :
    (dimStatAt vs i).mean = specArithMean (coordColumn vs i) :=
  mean_fold_eq (coordColumn vs i)

/-- The `std` field of a `dimension_stats` entry is the population
standard deviation of the coordinate column. -/
theorem dimStatAt_std (vs : List (List ℚ)) (i : ℕ) :
    (dimStatAt vs i).std = specPopStd (coordColumn vs i) := by
  have hcoord : List.map (fun v => v.getD i 0) vs = coordColumn vs i := rfl
  show Real.sqrt _ = _
  rw [specPopStd]
  congr 1
  norm_cast
  rw [hcoord]
  rw [show (fun (sum val : ℚ) => sum +
      (val - List.foldl (fun sum val => sum + val) 0
          (coordColumn vs i) / ((coordColumn vs i).length : ℚ)) *
      (val - List.foldl (fun sum val => sum + val) 0
          (coordColumn vs i) / ((coordColumn vs i).length : ℚ))) =
    (fun (sum val : ℚ) => sum +
      (val - specArithMean (coordColumn vs i)) *
      (val - specArithMean (coordColumn vs i))) from by
        rw [mean_fold_eq]]
  exact variance_fold_eq (coordColumn vs i) (specArithMean (coordColumn vs i))

/-- The `min` field of a `dimension_stats` entry is the minimum of the
coordinate column. -/
theorem dimStatAt_min (vs : List (List ℚ)) (i : ℕ) :
    (dimStatAt vs i).min = (coordColumn vs i).minimum := by
  show List.foldl _ ⊤ (coordColumn vs i) = _
  rw [foldl_min_eq]
  exact min_eq_right le_top

/-- The `max` field of a `dimension_stats` entry is the maximum of the
coordinate column. -/
theorem dimStatAt_max (vs : List (List ℚ)) (i : ℕ) :
    (dimStatAt vs i).max = (coordColumn vs i).maximum := by
  show List.foldl _ ⊥ (coordColumn vs i) = _
  rw [foldl_max_eq]
  exact max_eq_right bot_le

/-- C8: `vectorStatistics` returns `null` on an empty input; on every
nonempty set of equal-length vectors it returns `count` equal to the
number of vectors, `dimensions` equal to the common length, one
`dimension_stats` entry per coordinate, and for every coordinate
`i < dimensions` the entry's `mean` is the arithmetic mean of the `i`-th
coordinate across all vectors, its `std` is the population standard
deviation of that coordinate (divisor = count), and its `min`/`max` are
the minimum/maximum of that coordinate. -/
theorem claim_C8_vectorStatistics (vectors : List (List ℚ)) (d : ℕ)
    (hne : vectors ≠ []) (hlen : ∀ v ∈ vectors, v.length = d) :
    calculateVectorStatistics [] = none ∧
    ∃ s, calculateVectorStatistics vectors = some s ∧
      s.count = vectors.length ∧
      s.dimensions = d ∧
      s.dimension_stats.length = d ∧
      ∀ i, i < d →
        (s.dimension_stats.getD i ⟨⊤, ⊥, 0, 0⟩).mean =
          specArithMean (coordColumn vectors i) ∧
        (s.dimension_stats.getD i ⟨⊤, ⊥, 0, 0⟩).std =
          specPopStd (coordColumn vectors i) ∧
        (s.dimension_stats.getD i ⟨⊤, ⊥, 0, 0⟩).min =
          (coordColumn vectors i).minimum ∧
        (s.dimension_stats.getD i ⟨⊤, ⊥, 0, 0⟩).max =
          (coordColumn vectors i).maximum := by
  refine ⟨rfl, ?_⟩
  cases vectors with
  | nil => exact absurd rfl hne
  | cons v0 rest =>
    have hd0 : v0.length = d := hlen v0 (by simp)
    obtain ⟨s, hs, hcount, hdims, hds⟩ :
        ∃ s, calculateVectorStatistics (v0 :: rest) = some s ∧
          s.count = (v0 :: rest).length ∧ s.dimensions = v0.length ∧
          s.dimension_stats =
            (List.range v0.length).map (dimStatAt (v0 :: rest)) :=
      ⟨_, rfl, rfl, rfl, rfl⟩
    refine ⟨s, hs, hcount, hdims.trans hd0, by simp [hds, hd0], ?_⟩
    intro i hi
    rw [hds, getD_map_range _ _ _ (by omega)]
    exact ⟨dimStatAt_mean _ _, dimStatAt_std _ _, dimStatAt_min _ _,
      dimStatAt_max _ _⟩

/-- C8 (witness): the statistics theorem applied to the concrete vector
set `[[1, 2], [3, 4]]` of common length 2, with both hypotheses
discharged there. -/
theorem claim_C8_witness :
    ([[(1 : ℚ), 2], [3, 4]] : List (List ℚ)) ≠ [] ∧
    (∀ v ∈ ([[(1 : ℚ), 2], [3, 4]] : List (List ℚ)), v.length = 2) ∧
    (calculateVectorStatistics [] = none ∧
      ∃ s, calculateVectorStatistics [[(1 : ℚ), 2], [3, 4]] = some s ∧
        s.count = ([[(1 : ℚ), 2], [3, 4]] : List (List ℚ)).length ∧
        s.dimensions = 2 ∧
        s.dimension_stats.length = 2 ∧
        ∀ i, i < 2 →
          (s.dimension_stats.getD i ⟨⊤, ⊥, 0, 0⟩).mean =
            specArithMean (coordColumn [[(1 : ℚ), 2], [3, 4]] i) ∧
          (s.dimension_stats.getD i ⟨⊤, ⊥, 0, 0⟩).std =
            specPopStd (coordColumn [[(1 : ℚ), 2], [3, 4]] i) ∧
          (s.dimension_stats.getD i ⟨⊤, ⊥, 0, 0⟩).min =
            (coordColumn [[(1 : ℚ), 2], [3, 4]] i).minimum ∧
          (s.dimension_stats.getD i ⟨⊤, ⊥, 0, 0⟩).max =
            (coordColumn [[(1 : ℚ), 2], [3, 4]] i).maximum) :=
  ⟨by simp, by intro v hv; simp at hv; rcases hv with rfl | rfl <;> rfl,
    claim_C8_vectorStatistics [[(1 : ℚ), 2], [3, 4]] 2 (by simp)
      (by intro v hv; simp at hv; rcases hv with rfl | rfl <;> rfl)⟩

end VectorDB
